import Mathlib

/-!
Configuration checker of the React front end (`react-fe/check-config.js`).

The script reads four environment variables, prints one status line per
variable, prints a configuration status and ends with exit code `0` or `1`.

Embedding:

* the process environment is a function from names to optional strings
  (`none` is the JavaScript value `undefined`);
* every `console.log` call appends one entry to the output, kept in call order;
  a "line" of the output is one such entry;
* the mutable flag `hasErrors` and the output form the explicit state threaded
  through the two `forEach` loops;
* `process.exit(1)` ends the run with the output produced so far;
* `new URL(s)` followed by `toString()` belongs to the JavaScript platform; it is
  a parameter `newURL : String → Option String`, `none` standing for the thrown
  `TypeError` and `some u` for the serialized URL.
-/

namespace CheckConfig

/-- The process environment `process.env`: a variable is unset (`none`) or holds a string. -/
abbrev Env := String → Option String

/-- The platform constructor `new URL(s)` with `toString()`: the serialized URL, or
`none` when the constructor throws. -/
abbrev URLCtor := String → Option String

/-- Entries of `requiredVars`, in insertion order (the order of `Object.entries`). -/
def requiredVars : List (String × String) :=
  [("VITE_API_URL", "Backend API URL (EC2 instance)"),
   ("VITE_ADMIN_TOKEN", "Admin authentication token")]

/-- Entries of `optionalVars`, in insertion order. -/
def optionalVars : List (String × String) :=
  [("VITE_CONTACT_LAMBDA_URL", "Contact form Lambda function URL"),
   ("VITE_FRONTEND_URL", "Frontend URL (for reference)")]

/-- JavaScript truthiness of a value read from `process.env`: `undefined` and the
empty string are falsy, every other string is truthy. -/
def truthy : Option String → Bool
  | none => false
  | some v => v != ""

/-- Interpolation of a value read from `process.env` inside a template literal. -/
def interp : Option String → String
  | none => "undefined"
  | some v => v

/-- Mutable state of the script: the `console.log` calls made so far and `hasErrors`. -/
structure State where
  out : List String
  hasErrors : Bool
deriving Repr, DecidableEq

/-- Outcome of a run: the `console.log` calls in order and the process exit code. -/
structure Result where
  out : List String
  exitCode : Nat
deriving Repr, DecidableEq

/-- One `console.log(msg)` call. -/
def consoleLog (msg : String) (s : State) : State :=
  { s with out := s.out ++ [msg] }

/-- Body of the `forEach` over `Object.entries(requiredVars)`. -/
def checkRequired (env : Env) (s : State) (entry : String × String) : State :=
  let varName := entry.1
  let description := entry.2
  let value := env varName
  if truthy value then
    consoleLog ("✅ " ++ varName ++ ": " ++ interp value) s
  else
    { consoleLog ("❌ " ++ varName ++ ": Not set (" ++ description ++ ")") s with
      hasErrors := true }

/-- Body of the `forEach` over `Object.entries(optionalVars)`. -/
def checkOptional (env : Env) (s : State) (entry : String × String) : State :=
  let varName := entry.1
  let description := entry.2
  let value := env varName
  if truthy value then
    consoleLog ("✅ " ++ varName ++ ": " ++ interp value) s
  else
    consoleLog ("⚪ " ++ varName ++ ": Not set (" ++ description ++ ")") s

/-- The `try`/`catch` around the health-check URL construction. -/
def healthCheck (newURL : URLCtor) (apiUrl : Option String) (s : State) : State :=
  match newURL (interp apiUrl ++ "/api/health") with
  | some url =>
    let s := consoleLog ("🔗 API Health Check URL: " ++ url) s
    consoleLog ("💡 Test manually with: curl " ++ url) s
  | none =>
    consoleLog ("⚠️  API URL format might be invalid: " ++ interp apiUrl) s

/-- The whole script, top to bottom. -/
def checkConfig (newURL : URLCtor) (env : Env) : Result :=
  let s : State := { out := [], hasErrors := false }
  let s := consoleLog "🔍 Checking React Frontend Configuration...\n" s
  let s := consoleLog "📋 Required Variables:" s
  let s := requiredVars.foldl (checkRequired env) s
  let s := consoleLog "\n📋 Optional Variables:" s
  let s := optionalVars.foldl (checkOptional env) s
  let s := consoleLog "\n🔧 Configuration Status:" s
  if s.hasErrors then
    let s := consoleLog
      "❌ Configuration has errors! Please set the missing required variables." s
    let s := consoleLog "\n📝 To fix:" s
    let s := consoleLog "1. Copy .env.example to .env: cp .env.example .env" s
    let s := consoleLog "2. Edit .env file with your values: nano .env" s
    let s := consoleLog "3. For Amplify: Set environment variables in Amplify Console" s
    { out := s.out, exitCode := 1 }
  else
    let s := consoleLog "✅ Configuration looks good!" s
    let s :=
      if truthy (env "VITE_API_URL") then
        let s := consoleLog "\n🌐 Testing API connection..." s
        let apiUrl := env "VITE_API_URL"
        healthCheck newURL apiUrl s
      else s
    let s := consoleLog "\n✨ Configuration check complete!" s
    { out := s.out, exitCode := 0 }

/-! ### Closed form of the output

The run always prints eight leading lines (two headers, one line per required
variable, a header, one line per optional variable, the status header) followed by
the status block. The definitions below name these pieces; `checkConfig_out` and
`checkConfig_exitCode` prove that the script computes exactly them. -/

/-- Line printed by `checkRequired` for one entry. -/
def requiredLine (env : Env) (entry : String × String) : String :=
  if truthy (env entry.1) then "✅ " ++ entry.1 ++ ": " ++ interp (env entry.1)
  else "❌ " ++ entry.1 ++ ": Not set (" ++ entry.2 ++ ")"

/-- Line printed by `checkOptional` for one entry. -/
def optionalLine (env : Env) (entry : String × String) : String :=
  if truthy (env entry.1) then "✅ " ++ entry.1 ++ ": " ++ interp (env entry.1)
  else "⚪ " ++ entry.1 ++ ": Not set (" ++ entry.2 ++ ")"

/-- Lines printed by `healthCheck`. -/
def healthLines (newURL : URLCtor) (apiUrl : Option String) : List String :=
  match newURL (interp apiUrl ++ "/api/health") with
  | some url => ["🔗 API Health Check URL: " ++ url, "💡 Test manually with: curl " ++ url]
  | none => ["⚠️  API URL format might be invalid: " ++ interp apiUrl]

/-- Lines printed after the `Configuration Status:` header. -/
def statusLines (newURL : URLCtor) (env : Env) : List String :=
  if truthy (env "VITE_API_URL") && truthy (env "VITE_ADMIN_TOKEN") then
    ["✅ Configuration looks good!", "\n🌐 Testing API connection..."] ++
      healthLines newURL (env "VITE_API_URL") ++ ["\n✨ Configuration check complete!"]
  else
    ["❌ Configuration has errors! Please set the missing required variables.",
     "\n📝 To fix:",
     "1. Copy .env.example to .env: cp .env.example .env",
     "2. Edit .env file with your values: nano .env",
     "3. For Amplify: Set environment variables in Amplify Console"]

/-! ### Vocabulary of the statements -/

/-- A line of the form `🔗 API Health Check URL: <url>`. -/
def isHealthLine (l : String) : Prop := "🔗 API Health Check URL: ".data <+: l.data

/-- A line of the form `💡 Test manually with: curl <url>`. -/
def isCurlLine (l : String) : Prop := "💡 Test manually with: curl ".data <+: l.data

/-- A line of the form `⚠️  API URL format might be invalid: <value>`. -/
def isWarningLine (l : String) : Prop :=
  "⚠️  API URL format might be invalid: ".data <+: l.data

/-- A line that reports `varName` as not set, with the error marker or the neutral one. -/
def isNotSetLine (varName l : String) : Prop :=
  ("❌ " ++ varName ++ ": Not set").data <+: l.data ∨
  ("⚪ " ++ varName ++ ": Not set").data <+: l.data

instance : DecidablePred isHealthLine := fun l =>
  inferInstanceAs (Decidable ("🔗 API Health Check URL: ".data <+: l.data))

instance : DecidablePred isCurlLine := fun l =>
  inferInstanceAs (Decidable ("💡 Test manually with: curl ".data <+: l.data))

instance : DecidablePred isWarningLine := fun l =>
  inferInstanceAs (Decidable ("⚠️  API URL format might be invalid: ".data <+: l.data))

instance (varName : String) : DecidablePred (isNotSetLine varName) := fun l =>
  inferInstanceAs (Decidable (("❌ " ++ varName ++ ": Not set").data <+: l.data ∨
    ("⚪ " ++ varName ++ ": Not set").data <+: l.data))

/-- The environment given by a list of `name = value` bindings; the first binding of a
name wins and every other name is unset. -/
def envOf (bindings : List (String × String)) : Env := fun varName =>
  bindings.lookup varName

/-- A sample URL constructor for the worked examples: it returns unchanged the
strings that start with `http://` or `https://` and hold no space, and rejects every
other string. The general theorems hold for every constructor. -/
def sampleURL : URLCtor := fun s =>
  if ("https://".data.isPrefixOf s.data || "http://".data.isPrefixOf s.data)
      && !(s.data.contains ' ') then some s
  else none

/-! ## Auxiliary lemmas

The closed form of the run and the classification of its lines, shared by the
proofs of the claims. -/

theorem truthy_eq_true_iff (o : Option String) :
    truthy o = true ↔ ∃ v, o = some v ∧ v ≠ "" := by
  cases o <;> simp [truthy]

theorem truthy_eq_false_iff (o : Option String) :
    truthy o = false ↔ o = none ∨ o = some "" := by
  cases o <;> simp [truthy]

theorem truthy_some {o : Option String} {v : String} (h : o = some v) (hv : v ≠ "") :
    truthy o = true := by
  subst h; simpa [truthy] using hv

theorem healthCheck_out (newURL : URLCtor) (apiUrl : Option String) (s : State) :
    (healthCheck newURL apiUrl s).out = s.out ++ healthLines newURL apiUrl := by
  unfold healthCheck healthLines
  cases newURL (interp apiUrl ++ "/api/health") <;> simp [consoleLog]

theorem checkConfig_exitCode (newURL : URLCtor) (env : Env) :
    (checkConfig newURL env).exitCode =
      if truthy (env "VITE_API_URL") && truthy (env "VITE_ADMIN_TOKEN") then 0 else 1 := by
  simp only [checkConfig, requiredVars, optionalVars, List.foldl, checkRequired, checkOptional,
    consoleLog]
  cases truthy (env "VITE_API_URL") <;> cases truthy (env "VITE_ADMIN_TOKEN") <;>
    cases truthy (env "VITE_CONTACT_LAMBDA_URL") <;> cases truthy (env "VITE_FRONTEND_URL") <;>
    simp

theorem checkConfig_out (newURL : URLCtor) (env : Env) :
    (checkConfig newURL env).out =
      ["🔍 Checking React Frontend Configuration...\n",
       "📋 Required Variables:",
       requiredLine env ("VITE_API_URL", "Backend API URL (EC2 instance)"),
       requiredLine env ("VITE_ADMIN_TOKEN", "Admin authentication token"),
       "\n📋 Optional Variables:",
       optionalLine env ("VITE_CONTACT_LAMBDA_URL", "Contact form Lambda function URL"),
       optionalLine env ("VITE_FRONTEND_URL", "Frontend URL (for reference)"),
       "\n🔧 Configuration Status:"] ++ statusLines newURL env := by
  simp only [checkConfig, requiredVars, optionalVars, List.foldl, checkRequired, checkOptional,
    consoleLog, requiredLine, optionalLine, statusLines]
  cases h1 : truthy (env "VITE_API_URL") <;> cases h2 : truthy (env "VITE_ADMIN_TOKEN") <;>
    cases h3 : truthy (env "VITE_CONTACT_LAMBDA_URL") <;>
    cases h4 : truthy (env "VITE_FRONTEND_URL") <;>
    simp [healthCheck_out]

theorem truthy_eq_true_iff_ne (o : Option String) :
    truthy o = true ↔ o ≠ none ∧ o ≠ some "" := by
  cases o <;> simp [truthy]

theorem statusLines_of_truthy (newURL : URLCtor) (env : Env)
    (h1 : truthy (env "VITE_API_URL") = true) (h2 : truthy (env "VITE_ADMIN_TOKEN") = true) :
    statusLines newURL env =
      ["✅ Configuration looks good!", "\n🌐 Testing API connection..."] ++
        healthLines newURL (env "VITE_API_URL") ++ ["\n✨ Configuration check complete!"] := by
  simp [statusLines, h1, h2]

theorem statusLines_of_falsy (newURL : URLCtor) (env : Env)
    (h : truthy (env "VITE_API_URL") = false ∨ truthy (env "VITE_ADMIN_TOKEN") = false) :
    statusLines newURL env =
      ["❌ Configuration has errors! Please set the missing required variables.",
       "\n📝 To fix:",
       "1. Copy .env.example to .env: cp .env.example .env",
       "2. Edit .env file with your values: nano .env",
       "3. For Amplify: Set environment variables in Amplify Console"] := by
  rcases h with h | h <;> simp [statusLines, h]

theorem requiredLine_of_some (env : Env) (e : String × String) (v : String)
    (h : env e.1 = some v) (hv : v ≠ "") :
    requiredLine env e = "✅ " ++ e.1 ++ ": " ++ v := by
  rw [requiredLine, if_pos (truthy_some h hv), h]; rfl

theorem optionalLine_of_some (env : Env) (e : String × String) (v : String)
    (h : env e.1 = some v) (hv : v ≠ "") :
    optionalLine env e = "✅ " ++ e.1 ++ ": " ++ v := by
  rw [optionalLine, if_pos (truthy_some h hv), h]; rfl

theorem requiredLine_of_falsy (env : Env) (e : String × String)
    (h : truthy (env e.1) = false) :
    requiredLine env e = "❌ " ++ e.1 ++ ": Not set (" ++ e.2 ++ ")" := by
  simp [requiredLine, h]

theorem optionalLine_of_falsy (env : Env) (e : String × String)
    (h : truthy (env e.1) = false) :
    optionalLine env e = "⚪ " ++ e.1 ++ ": Not set (" ++ e.2 ++ ")" := by
  simp [optionalLine, h]

/-- The variable lines are never health-check, curl or warning lines. -/
theorem requiredLine_plain (env : Env) (e : String × String) :
    ¬ isHealthLine (requiredLine env e) ∧ ¬ isCurlLine (requiredLine env e) ∧
      ¬ isWarningLine (requiredLine env e) := by
  unfold requiredLine isHealthLine isCurlLine isWarningLine
  split <;> simp [String.data_append, List.cons_prefix_cons]

theorem optionalLine_plain (env : Env) (e : String × String) :
    ¬ isHealthLine (optionalLine env e) ∧ ¬ isCurlLine (optionalLine env e) ∧
      ¬ isWarningLine (optionalLine env e) := by
  unfold optionalLine isHealthLine isCurlLine isWarningLine
  split <;> simp [String.data_append, List.cons_prefix_cons]

theorem mem_out_iff (newURL : URLCtor) (env : Env) (l : String) :
    l ∈ (checkConfig newURL env).out ↔
      l = "🔍 Checking React Frontend Configuration...\n" ∨
      l = "📋 Required Variables:" ∨
      l = requiredLine env ("VITE_API_URL", "Backend API URL (EC2 instance)") ∨
      l = requiredLine env ("VITE_ADMIN_TOKEN", "Admin authentication token") ∨
      l = "\n📋 Optional Variables:" ∨
      l = optionalLine env ("VITE_CONTACT_LAMBDA_URL", "Contact form Lambda function URL") ∨
      l = optionalLine env ("VITE_FRONTEND_URL", "Frontend URL (for reference)") ∨
      l = "\n🔧 Configuration Status:" ∨
      l ∈ statusLines newURL env := by
  simp [checkConfig_out]

/-- Outside the status block no line is a health-check, curl or warning line. -/
theorem plain_of_mem_out (newURL : URLCtor) (env : Env) (l : String)
    (hl : l ∈ (checkConfig newURL env).out) :
    l ∈ statusLines newURL env ∨
      (¬ isHealthLine l ∧ ¬ isCurlLine l ∧ ¬ isWarningLine l) := by
  rw [mem_out_iff] at hl
  rcases hl with rfl | rfl | rfl | rfl | rfl | rfl | rfl | rfl | h
  · right; decide
  · right; decide
  · right; exact requiredLine_plain _ _
  · right; exact requiredLine_plain _ _
  · right; decide
  · right; exact optionalLine_plain _ _
  · right; exact optionalLine_plain _ _
  · right; decide
  · left; exact h

/-! ## The claims -/

/-- C1. Every run ends with exit code 0 or 1; the exit code is 1 exactly when some
required variable is unset or set to the empty string, and it is 0 otherwise, for
every URL constructor (so whether or not the health-check URL can be built) and
whatever the optional variables hold. -/
theorem exitCode_zero_or_one_iff_required_missing (newURL : URLCtor) (env : Env) :
    ((checkConfig newURL env).exitCode = 0 ∨ (checkConfig newURL env).exitCode = 1) ∧
    ((checkConfig newURL env).exitCode = 1 ↔
      ∃ e ∈ requiredVars, env e.1 = none ∨ env e.1 = some "") ∧
    ((checkConfig newURL env).exitCode = 0 ↔
      ¬ ∃ e ∈ requiredVars, env e.1 = none ∨ env e.1 = some "") := by
  rw [checkConfig_exitCode]
  cases h1 : truthy (env "VITE_API_URL") <;> cases h2 : truthy (env "VITE_ADMIN_TOKEN") <;>
    simp only [truthy_eq_false_iff, truthy_eq_true_iff_ne] at h1 h2 <;>
    simp [requiredVars, h1, h2]

/-- C2. When both required variables hold non-empty strings and the URL constructor
rejects the value of VITE_API_URL followed by `/api/health`, the failure is caught:
the exit code is 0, the output contains the warning line carrying that value
unchanged, and no health-check URL line is printed. -/
theorem url_failure_is_caught (newURL : URLCtor) (env : Env) (apiUrl token : String)
    (hApi : env "VITE_API_URL" = some apiUrl) (hApiNe : apiUrl ≠ "")
    (hTok : env "VITE_ADMIN_TOKEN" = some token) (hTokNe : token ≠ "")
    (hFail : newURL (apiUrl ++ "/api/health") = none) :
    (checkConfig newURL env).exitCode = 0 ∧
    ("⚠️  API URL format might be invalid: " ++ apiUrl) ∈ (checkConfig newURL env).out ∧
    ∀ l ∈ (checkConfig newURL env).out, ¬ isHealthLine l := by
  have t1 := truthy_some hApi hApiNe
  have t2 := truthy_some hTok hTokNe
  have hs : statusLines newURL env =
      ["✅ Configuration looks good!", "\n🌐 Testing API connection...",
       "⚠️  API URL format might be invalid: " ++ apiUrl,
       "\n✨ Configuration check complete!"] := by
    rw [statusLines_of_truthy newURL env t1 t2]
    simp [healthLines, hApi, interp, hFail]
  refine ⟨by simp [checkConfig_exitCode, t1, t2], ?_, ?_⟩
  · rw [mem_out_iff, hs]; simp
  · intro l hl
    rcases plain_of_mem_out newURL env l hl with h | h
    · rw [hs] at h
      simp only [List.mem_cons, List.mem_singleton, List.not_mem_nil, or_false] at h
      rcases h with rfl | rfl | rfl | rfl
      · decide
      · decide
      · simp [isHealthLine, String.data_append, List.cons_prefix_cons]
      · decide
    · exact h.1

/-- Witness of C2 at the value `not a url`. -/
theorem url_failure_is_caught_witness :
    (checkConfig sampleURL
        (envOf [("VITE_API_URL", "not a url"), ("VITE_ADMIN_TOKEN", "secret")])).exitCode = 0 ∧
    "⚠️  API URL format might be invalid: not a url" ∈
      (checkConfig sampleURL
        (envOf [("VITE_API_URL", "not a url"), ("VITE_ADMIN_TOKEN", "secret")])).out ∧
    ∀ l ∈ (checkConfig sampleURL
        (envOf [("VITE_API_URL", "not a url"), ("VITE_ADMIN_TOKEN", "secret")])).out,
      ¬ isHealthLine l :=
  url_failure_is_caught sampleURL
    (envOf [("VITE_API_URL", "not a url"), ("VITE_ADMIN_TOKEN", "secret")])
    "not a url" "secret" (by decide) (by decide) (by decide) (by decide) (by decide)

theorem requiredLine_cases (env : Env) (e : String × String) :
    (∃ v, env e.1 = some v ∧ v ≠ "" ∧ requiredLine env e = "✅ " ++ e.1 ++ ": " ++ v) ∨
    (truthy (env e.1) = false ∧
      requiredLine env e = "❌ " ++ e.1 ++ ": Not set (" ++ e.2 ++ ")") := by
  cases h : truthy (env e.1)
  · exact Or.inr ⟨rfl, requiredLine_of_falsy env e h⟩
  · obtain ⟨v, hv, hne⟩ := (truthy_eq_true_iff _).1 h
    exact Or.inl ⟨v, hv, hne, requiredLine_of_some env e v hv hne⟩

theorem optionalLine_cases (env : Env) (e : String × String) :
    (∃ v, env e.1 = some v ∧ v ≠ "" ∧ optionalLine env e = "✅ " ++ e.1 ++ ": " ++ v) ∨
    (truthy (env e.1) = false ∧
      optionalLine env e = "⚪ " ++ e.1 ++ ": Not set (" ++ e.2 ++ ")") := by
  cases h : truthy (env e.1)
  · exact Or.inr ⟨rfl, optionalLine_of_falsy env e h⟩
  · obtain ⟨v, hv, hne⟩ := (truthy_eq_true_iff _).1 h
    exact Or.inl ⟨v, hv, hne, optionalLine_of_some env e v hv hne⟩

theorem healthLines_cases (newURL : URLCtor) (apiUrl : Option String) (l : String)
    (h : l ∈ healthLines newURL apiUrl) :
    isHealthLine l ∨ isCurlLine l ∨ isWarningLine l := by
  unfold healthLines at h
  cases hu : newURL (interp apiUrl ++ "/api/health") with
  | none =>
    rw [hu] at h
    simp only [List.mem_singleton] at h
    subst h
    right; right
    simp [isWarningLine, String.data_append]
  | some u =>
    rw [hu] at h
    simp only [List.mem_cons, List.mem_singleton, List.not_mem_nil, or_false] at h
    rcases h with rfl | rfl
    · left; simp [isHealthLine, String.data_append]
    · right; left; simp [isCurlLine, String.data_append]

/-- Every line of the status block is one of eight fixed lines or comes from the
health check. -/
theorem statusLines_cases (newURL : URLCtor) (env : Env) (l : String)
    (h : l ∈ statusLines newURL env) :
    l ∈ ["✅ Configuration looks good!", "\n🌐 Testing API connection...",
         "\n✨ Configuration check complete!",
         "❌ Configuration has errors! Please set the missing required variables.",
         "\n📝 To fix:",
         "1. Copy .env.example to .env: cp .env.example .env",
         "2. Edit .env file with your values: nano .env",
         "3. For Amplify: Set environment variables in Amplify Console"] ∨
    isHealthLine l ∨ isCurlLine l ∨ isWarningLine l := by
  unfold statusLines at h
  split at h
  · simp only [List.mem_append, List.mem_cons, List.mem_singleton, List.not_mem_nil,
      or_false] at h
    rcases h with ((rfl | rfl) | h) | rfl
    · left; decide
    · left; decide
    · right; exact healthLines_cases newURL _ l h
    · left; decide
  · left
    simp only [List.mem_cons, List.mem_singleton, List.not_mem_nil, or_false] at h ⊢
    tauto

/-- A health-check, curl or warning line carries neither the error marker nor the
neutral marker nor the OK marker. -/
theorem health_not_marked (l : String)
    (h : isHealthLine l ∨ isCurlLine l ∨ isWarningLine l) :
    ¬ "❌ ".data <+: l.data ∧ ¬ "⚪ ".data <+: l.data ∧ ¬ "✅ ".data <+: l.data := by
  unfold isHealthLine isCurlLine isWarningLine at h
  refine ⟨?_, ?_, ?_⟩ <;>
  · rintro ⟨t, ht⟩
    rcases h with ⟨u, hu⟩ | ⟨u, hu⟩ | ⟨u, hu⟩ <;>
    · rw [← hu] at ht
      simp at ht

/-- The lines of the output that carry the error marker: the failure banner and the
missing lines of the falsy required variables. -/
theorem errorMarked_of_mem_out (newURL : URLCtor) (env : Env) (l : String)
    (hl : l ∈ (checkConfig newURL env).out) (hp : "❌ ".data <+: l.data) :
    l = "❌ Configuration has errors! Please set the missing required variables." ∨
    ∃ e ∈ requiredVars, truthy (env e.1) = false ∧
      l = "❌ " ++ e.1 ++ ": Not set (" ++ e.2 ++ ")" := by
  rw [mem_out_iff] at hl
  rcases hl with rfl | rfl | rfl | rfl | rfl | rfl | rfl | rfl | h
  · exact absurd hp (by decide)
  · exact absurd hp (by decide)
  · rcases requiredLine_cases env ("VITE_API_URL", "Backend API URL (EC2 instance)") with
      ⟨v, _, _, hr⟩ | ⟨ht, hr⟩
    · rw [hr] at hp; simp [String.data_append] at hp
    · exact Or.inr ⟨_, by simp [requiredVars], ht, hr⟩
  · rcases requiredLine_cases env ("VITE_ADMIN_TOKEN", "Admin authentication token") with
      ⟨v, _, _, hr⟩ | ⟨ht, hr⟩
    · rw [hr] at hp; simp [String.data_append] at hp
    · exact Or.inr ⟨_, by simp [requiredVars], ht, hr⟩
  · exact absurd hp (by decide)
  · rcases optionalLine_cases env
        ("VITE_CONTACT_LAMBDA_URL", "Contact form Lambda function URL") with
      ⟨v, _, _, hr⟩ | ⟨_, hr⟩ <;>
    · rw [hr] at hp; simp [String.data_append] at hp
  · rcases optionalLine_cases env ("VITE_FRONTEND_URL", "Frontend URL (for reference)") with
      ⟨v, _, _, hr⟩ | ⟨_, hr⟩ <;>
    · rw [hr] at hp; simp [String.data_append] at hp
  · exact absurd hp (by decide)
  · rcases statusLines_cases newURL env l h with hc | hh
    · simp only [List.mem_cons, List.mem_singleton, List.not_mem_nil, or_false] at hc
      rcases hc with rfl | rfl | rfl | rfl | rfl | rfl | rfl | rfl
      · exact absurd hp (by decide)
      · exact absurd hp (by decide)
      · exact absurd hp (by decide)
      · exact Or.inl rfl
      · exact absurd hp (by decide)
      · exact absurd hp (by decide)
      · exact absurd hp (by decide)
      · exact absurd hp (by decide)
    · exact absurd hp (health_not_marked l hh).1

/-- The lines of the output that carry the neutral marker: the not-set lines of the
falsy optional variables. -/
theorem neutralMarked_of_mem_out (newURL : URLCtor) (env : Env) (l : String)
    (hl : l ∈ (checkConfig newURL env).out) (hp : "⚪ ".data <+: l.data) :
    ∃ e ∈ optionalVars, truthy (env e.1) = false ∧
      l = "⚪ " ++ e.1 ++ ": Not set (" ++ e.2 ++ ")" := by
  rw [mem_out_iff] at hl
  rcases hl with rfl | rfl | rfl | rfl | rfl | rfl | rfl | rfl | h
  · exact absurd hp (by decide)
  · exact absurd hp (by decide)
  · rcases requiredLine_cases env ("VITE_API_URL", "Backend API URL (EC2 instance)") with
      ⟨v, _, _, hr⟩ | ⟨_, hr⟩ <;>
    · rw [hr] at hp; simp [String.data_append] at hp
  · rcases requiredLine_cases env ("VITE_ADMIN_TOKEN", "Admin authentication token") with
      ⟨v, _, _, hr⟩ | ⟨_, hr⟩ <;>
    · rw [hr] at hp; simp [String.data_append] at hp
  · exact absurd hp (by decide)
  · rcases optionalLine_cases env
        ("VITE_CONTACT_LAMBDA_URL", "Contact form Lambda function URL") with
      ⟨v, _, _, hr⟩ | ⟨ht, hr⟩
    · rw [hr] at hp; simp [String.data_append] at hp
    · exact ⟨_, by simp [optionalVars], ht, hr⟩
  · rcases optionalLine_cases env ("VITE_FRONTEND_URL", "Frontend URL (for reference)") with
      ⟨v, _, _, hr⟩ | ⟨ht, hr⟩
    · rw [hr] at hp; simp [String.data_append] at hp
    · exact ⟨_, by simp [optionalVars], ht, hr⟩
  · exact absurd hp (by decide)
  · rcases statusLines_cases newURL env l h with hc | hh
    · simp only [List.mem_cons, List.mem_singleton, List.not_mem_nil, or_false] at hc
      rcases hc with rfl | rfl | rfl | rfl | rfl | rfl | rfl | rfl <;>
        exact absurd hp (by decide)
    · exact absurd hp (health_not_marked l hh).2.1

/-- Counterexample to C3 as stated. With VITE_API_URL set to the empty string and
VITE_ADMIN_TOKEN set to `secret`, the exit code is 1, not 0, and no warning line is
printed. -/
theorem empty_api_url_exit_zero_counterexample :
    (checkConfig sampleURL
        (envOf [("VITE_API_URL", ""), ("VITE_ADMIN_TOKEN", "secret")])).exitCode ≠ 0 ∧
    ¬ ∃ l ∈ (checkConfig sampleURL
        (envOf [("VITE_API_URL", ""), ("VITE_ADMIN_TOKEN", "secret")])).out,
      isWarningLine l := by
  decide

/-- C3, amended. When VITE_API_URL is set to the empty string, whatever the admin token
holds, the empty value counts as not set: the exit code is 1, the output flags
VITE_API_URL as missing, and no URL-format warning line is printed. -/
theorem empty_api_url_is_missing (newURL : URLCtor) (env : Env)
    (hApi : env "VITE_API_URL" = some "") :
    (checkConfig newURL env).exitCode = 1 ∧
    "❌ VITE_API_URL: Not set (Backend API URL (EC2 instance))" ∈
      (checkConfig newURL env).out ∧
    ∀ l ∈ (checkConfig newURL env).out, ¬ isWarningLine l := by
  have t1 : truthy (env "VITE_API_URL") = false := by rw [hApi]; rfl
  have hs := statusLines_of_falsy newURL env (Or.inl t1)
  refine ⟨by simp [checkConfig_exitCode, t1], ?_, ?_⟩
  · rw [mem_out_iff, requiredLine_of_falsy env _ t1]
    right; right; left; rfl
  · intro l hl
    rcases plain_of_mem_out newURL env l hl with h | h
    · rw [hs] at h
      simp only [List.mem_cons, List.mem_singleton, List.not_mem_nil, or_false] at h
      rcases h with rfl | rfl | rfl | rfl | rfl <;> decide
    · exact h.2.2

/-- Witness of the amended C3. -/
theorem empty_api_url_is_missing_witness :
    (checkConfig sampleURL
        (envOf [("VITE_API_URL", ""), ("VITE_ADMIN_TOKEN", "secret")])).exitCode = 1 ∧
    "❌ VITE_API_URL: Not set (Backend API URL (EC2 instance))" ∈
      (checkConfig sampleURL
        (envOf [("VITE_API_URL", ""), ("VITE_ADMIN_TOKEN", "secret")])).out ∧
    ∀ l ∈ (checkConfig sampleURL
        (envOf [("VITE_API_URL", ""), ("VITE_ADMIN_TOKEN", "secret")])).out,
      ¬ isWarningLine l :=
  empty_api_url_is_missing sampleURL
    (envOf [("VITE_API_URL", ""), ("VITE_ADMIN_TOKEN", "secret")]) (by decide)

/-- C4. For each required variable that is absent from the environment the exit code
is 1 and the output contains the line flagging that variable as missing, made of the
error marker, the name and the description; for a required variable set to a
non-empty string that line is not printed. -/
theorem required_missing_line (newURL : URLCtor) (env : Env) (e : String × String)
    (he : e ∈ requiredVars) :
    (env e.1 = none →
      (checkConfig newURL env).exitCode = 1 ∧
      ("❌ " ++ e.1 ++ ": Not set (" ++ e.2 ++ ")") ∈ (checkConfig newURL env).out) ∧
    (∀ v, env e.1 = some v → v ≠ "" →
      ("❌ " ++ e.1 ++ ": Not set (" ++ e.2 ++ ")") ∉ (checkConfig newURL env).out) := by
  have key : ∀ v, env e.1 = some v → v ≠ "" →
      ∀ e2 ∈ requiredVars, truthy (env e2.1) = false →
        "❌ " ++ e.1 ++ ": Not set (" ++ e.2 ++ ")" ≠
          "❌ " ++ e2.1 ++ ": Not set (" ++ e2.2 ++ ")" := by
    intro v h hv e2 he2 ht heq
    have t := truthy_some h hv
    simp only [requiredVars, List.mem_cons, List.mem_singleton, List.not_mem_nil,
      or_false] at he he2
    rcases he with rfl | rfl <;> rcases he2 with rfl | rfl
    · rw [t] at ht; exact Bool.noConfusion ht
    · exact absurd heq (by decide)
    · exact absurd heq (by decide)
    · rw [t] at ht; exact Bool.noConfusion ht
  refine ⟨fun h => ?_, fun v h hv hmem => ?_⟩
  · have t : truthy (env e.1) = false := by rw [h]; rfl
    simp only [requiredVars, List.mem_cons, List.mem_singleton, List.not_mem_nil,
      or_false] at he
    rcases he with rfl | rfl
    · refine ⟨by simp [checkConfig_exitCode, t], ?_⟩
      rw [mem_out_iff, requiredLine_of_falsy env _ t]
      right; right; left; rfl
    · refine ⟨by simp [checkConfig_exitCode, t], ?_⟩
      rw [mem_out_iff, requiredLine_of_falsy env _ t]
      right; right; right; left; rfl
  · have hp : "❌ ".data <+: ("❌ " ++ e.1 ++ ": Not set (" ++ e.2 ++ ")").data := by
      simp [String.data_append]
    rcases errorMarked_of_mem_out newURL env _ hmem hp with hb | ⟨e2, he2, ht, heq⟩
    · simp only [requiredVars, List.mem_cons, List.mem_singleton, List.not_mem_nil,
        or_false] at he
      rcases he with rfl | rfl <;> exact absurd hb (by decide)
    · exact key v h hv e2 he2 ht heq

/-- Witness of C4: VITE_API_URL is absent and flagged, VITE_ADMIN_TOKEN is set and
not flagged. -/
theorem required_missing_line_witness :
    ((checkConfig sampleURL (envOf [("VITE_ADMIN_TOKEN", "secret")])).exitCode = 1 ∧
      "❌ VITE_API_URL: Not set (Backend API URL (EC2 instance))" ∈
        (checkConfig sampleURL (envOf [("VITE_ADMIN_TOKEN", "secret")])).out) ∧
    "❌ VITE_ADMIN_TOKEN: Not set (Admin authentication token)" ∉
      (checkConfig sampleURL (envOf [("VITE_ADMIN_TOKEN", "secret")])).out :=
  ⟨(required_missing_line sampleURL (envOf [("VITE_ADMIN_TOKEN", "secret")])
      ("VITE_API_URL", "Backend API URL (EC2 instance)") (by decide)).1 (by decide),
   (required_missing_line sampleURL (envOf [("VITE_ADMIN_TOKEN", "secret")])
      ("VITE_ADMIN_TOKEN", "Admin authentication token") (by decide)).2
      "secret" (by decide) (by decide)⟩

theorem requiredLine_congr (env1 env2 : Env) (e : String × String)
    (h : env1 e.1 = env2 e.1) : requiredLine env1 e = requiredLine env2 e := by
  simp [requiredLine, h]

theorem statusLines_congr (newURL : URLCtor) (env1 env2 : Env)
    (hApi : env1 "VITE_API_URL" = env2 "VITE_API_URL")
    (hTok : env1 "VITE_ADMIN_TOKEN" = env2 "VITE_ADMIN_TOKEN") :
    statusLines newURL env1 = statusLines newURL env2 := by
  simp [statusLines, hApi, hTok]

/-- C5. Two environments that agree on VITE_API_URL and VITE_ADMIN_TOKEN give the same
exit code, and their outputs agree on the first five lines (the two headers, the two
required-variable lines, the optional header at index 4) and on everything from index
7 on (the status header at index 7 and the whole status block): the outputs can
differ only at indices 5 and 6, the two optional-variable lines. -/
theorem optional_vars_do_not_affect_result (newURL : URLCtor) (env1 env2 : Env)
    (hApi : env1 "VITE_API_URL" = env2 "VITE_API_URL")
    (hTok : env1 "VITE_ADMIN_TOKEN" = env2 "VITE_ADMIN_TOKEN") :
    (checkConfig newURL env1).exitCode = (checkConfig newURL env2).exitCode ∧
    (checkConfig newURL env1).out.take 5 = (checkConfig newURL env2).out.take 5 ∧
    (checkConfig newURL env1).out.drop 7 = (checkConfig newURL env2).out.drop 7 ∧
    (checkConfig newURL env1).out.take 5 =
      ["🔍 Checking React Frontend Configuration...\n", "📋 Required Variables:",
       requiredLine env1 ("VITE_API_URL", "Backend API URL (EC2 instance)"),
       requiredLine env1 ("VITE_ADMIN_TOKEN", "Admin authentication token"),
       "\n📋 Optional Variables:"] ∧
    (checkConfig newURL env1).out.drop 7 =
      "\n🔧 Configuration Status:" :: statusLines newURL env1 := by
  have hs := statusLines_congr newURL env1 env2 hApi hTok
  have h1 := requiredLine_congr env1 env2 ("VITE_API_URL", "Backend API URL (EC2 instance)") hApi
  have h2 := requiredLine_congr env1 env2 ("VITE_ADMIN_TOKEN", "Admin authentication token") hTok
  refine ⟨by simp [checkConfig_exitCode, hApi, hTok], ?_, ?_, ?_, ?_⟩ <;>
    simp [checkConfig_out, hs, h1, h2]

/-- Witness of C5: one environment sets both optional variables, the other leaves one
unset and the other empty. -/
theorem optional_vars_do_not_affect_result_witness :
    (checkConfig sampleURL (envOf [("VITE_API_URL", "https://api.example.com"),
        ("VITE_ADMIN_TOKEN", "secret"), ("VITE_CONTACT_LAMBDA_URL", "https://l.example.com"),
        ("VITE_FRONTEND_URL", "https://www.example.com")])).exitCode =
      (checkConfig sampleURL (envOf [("VITE_API_URL", "https://api.example.com"),
        ("VITE_ADMIN_TOKEN", "secret"), ("VITE_FRONTEND_URL", "")])).exitCode ∧
    (checkConfig sampleURL (envOf [("VITE_API_URL", "https://api.example.com"),
        ("VITE_ADMIN_TOKEN", "secret"), ("VITE_CONTACT_LAMBDA_URL", "https://l.example.com"),
        ("VITE_FRONTEND_URL", "https://www.example.com")])).out.take 5 =
      (checkConfig sampleURL (envOf [("VITE_API_URL", "https://api.example.com"),
        ("VITE_ADMIN_TOKEN", "secret"), ("VITE_FRONTEND_URL", "")])).out.take 5 ∧
    (checkConfig sampleURL (envOf [("VITE_API_URL", "https://api.example.com"),
        ("VITE_ADMIN_TOKEN", "secret"), ("VITE_CONTACT_LAMBDA_URL", "https://l.example.com"),
        ("VITE_FRONTEND_URL", "https://www.example.com")])).out.drop 7 =
      (checkConfig sampleURL (envOf [("VITE_API_URL", "https://api.example.com"),
        ("VITE_ADMIN_TOKEN", "secret"), ("VITE_FRONTEND_URL", "")])).out.drop 7 :=
  have h := optional_vars_do_not_affect_result sampleURL
    (envOf [("VITE_API_URL", "https://api.example.com"),
        ("VITE_ADMIN_TOKEN", "secret"), ("VITE_CONTACT_LAMBDA_URL", "https://l.example.com"),
        ("VITE_FRONTEND_URL", "https://www.example.com")])
    (envOf [("VITE_API_URL", "https://api.example.com"),
        ("VITE_ADMIN_TOKEN", "secret"), ("VITE_FRONTEND_URL", "")])
    (by decide) (by decide)
  ⟨h.1, h.2.1, h.2.2.1⟩

/-- C6. When both required variables hold non-empty strings and the URL constructor
accepts the value of VITE_API_URL followed by `/api/health`, the exit code is 0 and the
health-check line and the curl line both carry the serialized URL; they are the only
health-check line and the only curl line of the output. For the value
`https://api.example.com`, serialized as `https://api.example.com/api/health`, both
lines carry exactly that URL. -/
theorem health_url_printed_twice (newURL : URLCtor) (env : Env) (apiUrl token url : String)
    (hApi : env "VITE_API_URL" = some apiUrl) (hApiNe : apiUrl ≠ "")
    (hTok : env "VITE_ADMIN_TOKEN" = some token) (hTokNe : token ≠ "")
    (hUrl : newURL (apiUrl ++ "/api/health") = some url) :
    (checkConfig newURL env).exitCode = 0 ∧
    ("🔗 API Health Check URL: " ++ url) ∈ (checkConfig newURL env).out ∧
    ("💡 Test manually with: curl " ++ url) ∈ (checkConfig newURL env).out ∧
    (∀ l ∈ (checkConfig newURL env).out,
      isHealthLine l → l = "🔗 API Health Check URL: " ++ url) ∧
    (∀ l ∈ (checkConfig newURL env).out,
      isCurlLine l → l = "💡 Test manually with: curl " ++ url) := by
  have t1 := truthy_some hApi hApiNe
  have t2 := truthy_some hTok hTokNe
  have hs : statusLines newURL env =
      ["✅ Configuration looks good!", "\n🌐 Testing API connection...",
       "🔗 API Health Check URL: " ++ url, "💡 Test manually with: curl " ++ url,
       "\n✨ Configuration check complete!"] := by
    rw [statusLines_of_truthy newURL env t1 t2]
    simp [healthLines, hApi, interp, hUrl]
  refine ⟨by simp [checkConfig_exitCode, t1, t2], ?_, ?_, ?_, ?_⟩
  · rw [mem_out_iff, hs]; simp
  · rw [mem_out_iff, hs]; simp
  · intro l hl hh
    rcases plain_of_mem_out newURL env l hl with h | h
    · rw [hs] at h
      simp only [List.mem_cons, List.mem_singleton, List.not_mem_nil, or_false] at h
      rcases h with rfl | rfl | rfl | rfl | rfl
      · exact absurd hh (by decide)
      · exact absurd hh (by decide)
      · rfl
      · simp [isHealthLine, String.data_append] at hh
      · exact absurd hh (by decide)
    · exact absurd hh h.1
  · intro l hl hh
    rcases plain_of_mem_out newURL env l hl with h | h
    · rw [hs] at h
      simp only [List.mem_cons, List.mem_singleton, List.not_mem_nil, or_false] at h
      rcases h with rfl | rfl | rfl | rfl | rfl
      · exact absurd hh (by decide)
      · exact absurd hh (by decide)
      · simp [isCurlLine, String.data_append] at hh
      · rfl
      · exact absurd hh (by decide)
    · exact absurd hh h.2.1

/-- Witness of C6 at `https://api.example.com`. -/
theorem health_url_printed_twice_witness :
    (checkConfig sampleURL (envOf [("VITE_API_URL", "https://api.example.com"),
        ("VITE_ADMIN_TOKEN", "secret")])).exitCode = 0 ∧
    "🔗 API Health Check URL: https://api.example.com/api/health" ∈
      (checkConfig sampleURL (envOf [("VITE_API_URL", "https://api.example.com"),
        ("VITE_ADMIN_TOKEN", "secret")])).out ∧
    "💡 Test manually with: curl https://api.example.com/api/health" ∈
      (checkConfig sampleURL (envOf [("VITE_API_URL", "https://api.example.com"),
        ("VITE_ADMIN_TOKEN", "secret")])).out :=
  have h := health_url_printed_twice sampleURL
    (envOf [("VITE_API_URL", "https://api.example.com"), ("VITE_ADMIN_TOKEN", "secret")])
    "https://api.example.com" "secret" "https://api.example.com/api/health"
    (by decide) (by decide) (by decide) (by decide) (by decide)
  ⟨h.1, h.2.1, h.2.2.1⟩

/-- C7. With no environment variable set the exit code is 1; the output is the thirteen
lines below: each required variable is flagged as missing with the error marker, each
optional variable is reported as not set with the neutral marker and never with the
error marker, and no line is a health-check URL line or a URL warning line. -/
theorem empty_environment_run (newURL : URLCtor) :
    (checkConfig newURL (fun _ => none)).exitCode = 1 ∧
    (checkConfig newURL (fun _ => none)).out =
      ["🔍 Checking React Frontend Configuration...\n",
       "📋 Required Variables:",
       "❌ VITE_API_URL: Not set (Backend API URL (EC2 instance))",
       "❌ VITE_ADMIN_TOKEN: Not set (Admin authentication token)",
       "\n📋 Optional Variables:",
       "⚪ VITE_CONTACT_LAMBDA_URL: Not set (Contact form Lambda function URL)",
       "⚪ VITE_FRONTEND_URL: Not set (Frontend URL (for reference))",
       "\n🔧 Configuration Status:",
       "❌ Configuration has errors! Please set the missing required variables.",
       "\n📝 To fix:",
       "1. Copy .env.example to .env: cp .env.example .env",
       "2. Edit .env file with your values: nano .env",
       "3. For Amplify: Set environment variables in Amplify Console"] ∧
    (∀ e ∈ requiredVars,
      ("❌ " ++ e.1 ++ ": Not set (" ++ e.2 ++ ")") ∈
        (checkConfig newURL (fun _ => none)).out) ∧
    (∀ e ∈ optionalVars,
      ("⚪ " ++ e.1 ++ ": Not set (" ++ e.2 ++ ")") ∈
        (checkConfig newURL (fun _ => none)).out ∧
      ∀ l ∈ (checkConfig newURL (fun _ => none)).out,
        ¬ ("❌ " ++ e.1).data <+: l.data) ∧
    (∀ l ∈ (checkConfig newURL (fun _ => none)).out,
      ¬ isHealthLine l ∧ ¬ isWarningLine l) := by
  have h : checkConfig newURL (fun _ => none) =
      { out := ["🔍 Checking React Frontend Configuration...\n",
       "📋 Required Variables:",
       "❌ VITE_API_URL: Not set (Backend API URL (EC2 instance))",
       "❌ VITE_ADMIN_TOKEN: Not set (Admin authentication token)",
       "\n📋 Optional Variables:",
       "⚪ VITE_CONTACT_LAMBDA_URL: Not set (Contact form Lambda function URL)",
       "⚪ VITE_FRONTEND_URL: Not set (Frontend URL (for reference))",
       "\n🔧 Configuration Status:",
       "❌ Configuration has errors! Please set the missing required variables.",
       "\n📝 To fix:",
       "1. Copy .env.example to .env: cp .env.example .env",
       "2. Edit .env file with your values: nano .env",
       "3. For Amplify: Set environment variables in Amplify Console"], exitCode := 1 } := rfl
  rw [h]
  refine ⟨rfl, rfl, ?_, ?_, ?_⟩
  · decide
  · decide
  · decide

/-- C8. For every variable of either mapping that is set to a non-empty string, the
output contains the OK line made of the OK marker, the name and the value unchanged,
and no line of the output reports that variable as not set, with either marker. -/
theorem set_variable_ok_line (newURL : URLCtor) (env : Env) (e : String × String)
    (v : String) (he : e ∈ requiredVars ++ optionalVars)
    (hv : env e.1 = some v) (hne : v ≠ "") :
    ("✅ " ++ e.1 ++ ": " ++ v) ∈ (checkConfig newURL env).out ∧
    ∀ l ∈ (checkConfig newURL env).out, ¬ isNotSetLine e.1 l := by
  have t := truthy_some hv hne
  simp only [requiredVars, optionalVars, List.cons_append, List.nil_append, List.mem_cons,
    List.mem_singleton, List.not_mem_nil, or_false] at he
  constructor
  · rw [mem_out_iff]
    rcases he with rfl | rfl | rfl | rfl
    · right; right; left; exact (requiredLine_of_some env _ v hv hne).symm
    · right; right; right; left; exact (requiredLine_of_some env _ v hv hne).symm
    · right; right; right; right; right; left
      exact (optionalLine_of_some env _ v hv hne).symm
    · right; right; right; right; right; right; left
      exact (optionalLine_of_some env _ v hv hne).symm
  · intro l hl hns
    rcases hns with hns | hns
    · have hp : "❌ ".data <+: l.data := by
        refine List.IsPrefix.trans ?_ hns
        simp [String.data_append]
      rcases errorMarked_of_mem_out newURL env l hl hp with rfl | ⟨e2, he2, ht, rfl⟩
      · rcases he with rfl | rfl | rfl | rfl <;> exact absurd hns (by decide)
      · simp only [requiredVars, List.mem_cons, List.mem_singleton, List.not_mem_nil,
          or_false] at he2
        rcases he with rfl | rfl | rfl | rfl <;> rcases he2 with rfl | rfl <;>
          first
          | exact absurd hns (by decide)
          | (rw [t] at ht; exact Bool.noConfusion ht)
    · have hp : "⚪ ".data <+: l.data := by
        refine List.IsPrefix.trans ?_ hns
        simp [String.data_append]
      obtain ⟨e2, he2, ht, rfl⟩ := neutralMarked_of_mem_out newURL env l hl hp
      simp only [optionalVars, List.mem_cons, List.mem_singleton, List.not_mem_nil,
        or_false] at he2
      rcases he with rfl | rfl | rfl | rfl <;> rcases he2 with rfl | rfl <;>
        first
        | exact absurd hns (by decide)
        | (rw [t] at ht; exact Bool.noConfusion ht)

/-- Witness of C8 at the optional variable VITE_FRONTEND_URL. -/
theorem set_variable_ok_line_witness :
    "✅ VITE_FRONTEND_URL: https://www.example.com" ∈
      (checkConfig sampleURL (envOf [("VITE_FRONTEND_URL", "https://www.example.com")])).out ∧
    ∀ l ∈ (checkConfig sampleURL
        (envOf [("VITE_FRONTEND_URL", "https://www.example.com")])).out,
      ¬ isNotSetLine "VITE_FRONTEND_URL" l :=
  set_variable_ok_line sampleURL (envOf [("VITE_FRONTEND_URL", "https://www.example.com")])
    ("VITE_FRONTEND_URL", "Frontend URL (for reference)") "https://www.example.com"
    (by decide) (by decide) (by decide)

theorem optionalLine_congr (env1 env2 : Env) (e : String × String)
    (h : env1 e.1 = env2 e.1) : optionalLine env1 e = optionalLine env2 e := by
  simp [optionalLine, h]

theorem result_eq (r1 r2 : Result) (hOut : r1.out = r2.out)
    (hCode : r1.exitCode = r2.exitCode) : r1 = r2 := by
  cases r1; cases r2; simp_all

/-- Counterexample to C9 as stated. The entry `API_URL` with description
`Backend API URL` is not in the required mapping, none of the four unprefixed names
is a key of either mapping, and an environment that sets `API_URL` and `ADMIN_TOKEN`
still ends with exit code 1: the checker does not look these names up. -/
theorem unprefixed_names_counterexample :
    ("API_URL", "Backend API URL") ∉ requiredVars ∧
    "API_URL" ∉ requiredVars.map Prod.fst ∧
    "ADMIN_TOKEN" ∉ requiredVars.map Prod.fst ∧
    "CONTACT_LAMBDA_URL" ∉ optionalVars.map Prod.fst ∧
    "FRONTEND_URL" ∉ optionalVars.map Prod.fst ∧
    "Backend API URL" ∉ requiredVars.map Prod.snd ∧
    (checkConfig sampleURL
      (envOf [("API_URL", "https://api.example.com"), ("ADMIN_TOKEN", "secret")])).exitCode
        = 1 := by
  decide

/-- C9, amended. The required mapping has exactly the two entries `VITE_API_URL` with
description `Backend API URL (EC2 instance)` and `VITE_ADMIN_TOKEN` with description
`Admin authentication token`; the optional mapping has exactly the two names
`VITE_CONTACT_LAMBDA_URL` and `VITE_FRONTEND_URL`; and these four names are the only
environment names the checker looks up: two environments that agree on them give the
same output and the same exit code. -/
theorem config_mappings_and_lookups :
    requiredVars =
      [("VITE_API_URL", "Backend API URL (EC2 instance)"),
       ("VITE_ADMIN_TOKEN", "Admin authentication token")] ∧
    optionalVars.map Prod.fst = ["VITE_CONTACT_LAMBDA_URL", "VITE_FRONTEND_URL"] ∧
    ∀ (newURL : URLCtor) (env1 env2 : Env),
      (∀ e ∈ requiredVars ++ optionalVars, env1 e.1 = env2 e.1) →
      checkConfig newURL env1 = checkConfig newURL env2 := by
  refine ⟨rfl, rfl, ?_⟩
  intro newURL env1 env2 h
  have hApi : env1 "VITE_API_URL" = env2 "VITE_API_URL" :=
    h ("VITE_API_URL", "Backend API URL (EC2 instance)") (by decide)
  have hTok : env1 "VITE_ADMIN_TOKEN" = env2 "VITE_ADMIN_TOKEN" :=
    h ("VITE_ADMIN_TOKEN", "Admin authentication token") (by decide)
  have hCon : env1 "VITE_CONTACT_LAMBDA_URL" = env2 "VITE_CONTACT_LAMBDA_URL" :=
    h ("VITE_CONTACT_LAMBDA_URL", "Contact form Lambda function URL") (by decide)
  have hFro : env1 "VITE_FRONTEND_URL" = env2 "VITE_FRONTEND_URL" :=
    h ("VITE_FRONTEND_URL", "Frontend URL (for reference)") (by decide)
  apply result_eq
  · rw [checkConfig_out, checkConfig_out, statusLines_congr newURL env1 env2 hApi hTok,
      requiredLine_congr env1 env2 _ hApi, requiredLine_congr env1 env2 _ hTok,
      optionalLine_congr env1 env2 _ hCon, optionalLine_congr env1 env2 _ hFro]
  · rw [checkConfig_exitCode, checkConfig_exitCode, hApi, hTok]

/-- Witness of the amended C9: adding the unprefixed names `API_URL` and `ADMIN_TOKEN`
to an environment changes nothing. -/
theorem config_mappings_and_lookups_witness :
    checkConfig sampleURL (envOf [("VITE_API_URL", "https://api.example.com"),
        ("API_URL", "https://other.example.com"), ("ADMIN_TOKEN", "secret")]) =
      checkConfig sampleURL (envOf [("VITE_API_URL", "https://api.example.com")]) :=
  config_mappings_and_lookups.2.2 sampleURL
    (envOf [("VITE_API_URL", "https://api.example.com"),
        ("API_URL", "https://other.example.com"), ("ADMIN_TOKEN", "secret")])
    (envOf [("VITE_API_URL", "https://api.example.com")]) (by decide)

/-- The health check prints exactly one line that is a health-check URL line or a
warning line. -/
theorem healthLines_count (newURL : URLCtor) (apiUrl : Option String) :
    (healthLines newURL apiUrl).countP
      (fun l => decide (isHealthLine l ∨ isWarningLine l)) = 1 := by
  unfold healthLines
  cases newURL (interp apiUrl ++ "/api/health") <;>
    simp [List.countP_cons, isHealthLine, isWarningLine, String.data_append]

theorem leading_count (env : Env) :
    ["🔍 Checking React Frontend Configuration...\n",
       "📋 Required Variables:",
       requiredLine env ("VITE_API_URL", "Backend API URL (EC2 instance)"),
       requiredLine env ("VITE_ADMIN_TOKEN", "Admin authentication token"),
       "\n📋 Optional Variables:",
       optionalLine env ("VITE_CONTACT_LAMBDA_URL", "Contact form Lambda function URL"),
       optionalLine env ("VITE_FRONTEND_URL", "Frontend URL (for reference)"),
       "\n🔧 Configuration Status:"].countP
      (fun l => decide (isHealthLine l ∨ isWarningLine l)) = 0 := by
  rw [List.countP_eq_zero]
  intro l hl
  simp only [List.mem_cons, List.mem_singleton, List.not_mem_nil, or_false] at hl
  have hr1 := requiredLine_plain env ("VITE_API_URL", "Backend API URL (EC2 instance)")
  have hr2 := requiredLine_plain env ("VITE_ADMIN_TOKEN", "Admin authentication token")
  have ho1 := optionalLine_plain env
    ("VITE_CONTACT_LAMBDA_URL", "Contact form Lambda function URL")
  have ho2 := optionalLine_plain env ("VITE_FRONTEND_URL", "Frontend URL (for reference)")
  rcases hl with rfl | rfl | rfl | rfl | rfl | rfl | rfl | rfl
  · decide
  · decide
  · simp [hr1.1, hr1.2.2]
  · simp [hr2.1, hr2.2.2]
  · decide
  · simp [ho1.1, ho1.2.2]
  · simp [ho2.1, ho2.2.2]
  · decide

/-- C10. The health-check step runs exactly when the run succeeds. If the exit code is
0, VITE_API_URL is truthy (the inner test cannot fail), exactly one line of the output
is a health-check URL line or a URL-format warning line, and the last line is the
completion line. If the exit code is 1, no line of the output is a health-check URL
line, a warning line or the completion line, and the last line is the third
remediation step. -/
theorem health_check_runs_iff_success (newURL : URLCtor) (env : Env) :
    ((checkConfig newURL env).exitCode = 0 →
      truthy (env "VITE_API_URL") = true ∧
      (checkConfig newURL env).out.countP
        (fun l => decide (isHealthLine l ∨ isWarningLine l)) = 1 ∧
      (checkConfig newURL env).out.getLast? = some "\n✨ Configuration check complete!") ∧
    ((checkConfig newURL env).exitCode = 1 →
      (∀ l ∈ (checkConfig newURL env).out,
        ¬ isHealthLine l ∧ ¬ isWarningLine l ∧ l ≠ "\n✨ Configuration check complete!") ∧
      (checkConfig newURL env).out.getLast? =
        some "3. For Amplify: Set environment variables in Amplify Console") := by
  constructor
  · intro h0
    rw [checkConfig_exitCode] at h0
    have hb : (truthy (env "VITE_API_URL") && truthy (env "VITE_ADMIN_TOKEN")) = true := by
      by_contra hb
      rw [if_neg hb] at h0
      exact absurd h0 (by decide)
    have t1 : truthy (env "VITE_API_URL") = true := by
      simp only [Bool.and_eq_true] at hb; exact hb.1
    have t2 : truthy (env "VITE_ADMIN_TOKEN") = true := by
      simp only [Bool.and_eq_true] at hb; exact hb.2
    refine ⟨t1, ?_, ?_⟩
    · rw [checkConfig_out, List.countP_append, leading_count,
        statusLines_of_truthy newURL env t1 t2, List.countP_append, List.countP_append,
        healthLines_count]
      decide
    · rw [checkConfig_out, statusLines_of_truthy newURL env t1 t2, ← List.append_assoc]
      exact List.getLast?_concat _
  · intro h1
    rw [checkConfig_exitCode] at h1
    have hb : ¬ (truthy (env "VITE_API_URL") && truthy (env "VITE_ADMIN_TOKEN")) = true := by
      intro hb
      rw [if_pos hb] at h1
      exact absurd h1 (by decide)
    have hf : truthy (env "VITE_API_URL") = false ∨ truthy (env "VITE_ADMIN_TOKEN") = false := by
      cases h : truthy (env "VITE_API_URL")
      · exact Or.inl rfl
      · cases h2 : truthy (env "VITE_ADMIN_TOKEN")
        · exact Or.inr rfl
        · rw [h, h2] at hb; exact absurd rfl hb
    have hs := statusLines_of_falsy newURL env hf
    constructor
    · intro l hl
      rw [mem_out_iff] at hl
      have hr1 := requiredLine_plain env ("VITE_API_URL", "Backend API URL (EC2 instance)")
      have hr2 := requiredLine_plain env ("VITE_ADMIN_TOKEN", "Admin authentication token")
      have ho1 := optionalLine_plain env
        ("VITE_CONTACT_LAMBDA_URL", "Contact form Lambda function URL")
      have ho2 := optionalLine_plain env ("VITE_FRONTEND_URL", "Frontend URL (for reference)")
      rw [hs] at hl
      simp only [List.mem_cons, List.mem_singleton, List.not_mem_nil, or_false] at hl
      have hne1 : ∀ e, requiredLine env e ≠ "\n✨ Configuration check complete!" := by
        intro e
        unfold requiredLine
        split <;> simp [String.ext_iff, String.data_append]
      have hne2 : ∀ e, optionalLine env e ≠ "\n✨ Configuration check complete!" := by
        intro e
        unfold optionalLine
        split <;> simp [String.ext_iff, String.data_append]
      rcases hl with rfl | rfl | rfl | rfl | rfl | rfl | rfl | rfl | rfl | rfl | rfl | rfl | rfl
      · decide
      · decide
      · exact ⟨hr1.1, hr1.2.2, hne1 _⟩
      · exact ⟨hr2.1, hr2.2.2, hne1 _⟩
      · decide
      · exact ⟨ho1.1, ho1.2.2, hne2 _⟩
      · exact ⟨ho2.1, ho2.2.2, hne2 _⟩
      · decide
      · decide
      · decide
      · decide
      · decide
      · decide
    · rw [checkConfig_out, hs]
      simp

/-- Witness of C10: one successful run with a warning line, one failing run. -/
theorem health_check_runs_iff_success_witness :
    (truthy (envOf [("VITE_API_URL", "not a url"), ("VITE_ADMIN_TOKEN", "secret")]
        "VITE_API_URL") = true ∧
      (checkConfig sampleURL
        (envOf [("VITE_API_URL", "not a url"), ("VITE_ADMIN_TOKEN", "secret")])).out.countP
          (fun l => decide (isHealthLine l ∨ isWarningLine l)) = 1 ∧
      (checkConfig sampleURL
        (envOf [("VITE_API_URL", "not a url"), ("VITE_ADMIN_TOKEN", "secret")])).out.getLast? =
          some "\n✨ Configuration check complete!") ∧
    ((∀ l ∈ (checkConfig sampleURL (envOf [("VITE_API_URL", "not a url")])).out,
        ¬ isHealthLine l ∧ ¬ isWarningLine l ∧ l ≠ "\n✨ Configuration check complete!") ∧
      (checkConfig sampleURL (envOf [("VITE_API_URL", "not a url")])).out.getLast? =
        some "3. For Amplify: Set environment variables in Amplify Console") :=
  ⟨(health_check_runs_iff_success sampleURL
      (envOf [("VITE_API_URL", "not a url"), ("VITE_ADMIN_TOKEN", "secret")])).1 (by decide),
   (health_check_runs_iff_success sampleURL
      (envOf [("VITE_API_URL", "not a url")])).2 (by decide)⟩

end CheckConfig
